import Mathlib

/-!
Shallow embedding of the aluminium-storefront application (src/app.py).

Database rows are Lean structures; the SQLite database is a record of row
lists plus autoincrement counters and a logical clock used to stamp
invoice creation times.  Float columns are modelled as exact rationals;
parsed form fields are Option values where none models a field whose
int(...) or float(...) conversion raises.
-/

namespace AluCalu

/-- Admin row (class Admin in src/app.py). -/
structure Admin where
  id : Nat
  username : String
  password_hash : String
deriving Repr, DecidableEq

/-- Category row (class Category in src/app.py). -/
structure Category where
  id : Nat
  name : String
deriving Repr, DecidableEq

/-- Product row (class Product in src/app.py). -/
structure Product where
  id : Nat
  name : String
  description : Option String
  image_url : Option String
  price_per_sqft : ℚ
  category_id : ℤ
deriving Repr, DecidableEq

/-- LaborCost row (class LaborCost in src/app.py). -/
structure LaborCost where
  id : Nat
  rate_per_sqft : ℚ
deriving Repr, DecidableEq

/-- Invoice row (class Invoice in src/app.py); created_at is a logical
timestamp drawn from the database clock. -/
structure Invoice where
  id : Nat
  customer_name : String
  customer_phone : String
  customer_address : String
  product_id : ℤ
  product_name : String
  height_ft : ℚ
  width_ft : ℚ
  quantity : ℤ
  sqft_price_at_booking : ℚ
  total_amount : ℚ
  created_at : Nat
deriving Repr, DecidableEq

/-- The persistent store: one list per table, an autoincrement counter per
table, and a logical clock stamping invoice creation order. -/
structure DB where
  admins : List Admin
  categories : List Category
  products : List Product
  laborCosts : List LaborCost
  invoices : List Invoice
  nextAdminId : Nat
  nextCategoryId : Nat
  nextProductId : Nat
  nextLaborId : Nat
  nextInvoiceId : Nat
  clock : Nat
deriving Repr, DecidableEq

/-- Parsed form payload of the create_invoice handler.  A none field
models a request value on which int(...) or float(...) raises (missing or
malformed); the handler catches that exception. -/
structure InvoiceForm where
  product_id : Option ℤ
  customer_name : String
  customer_phone : String
  customer_address : String
  height : Option ℚ
  width : Option ℚ
  quantity : Option ℤ
deriving Repr, DecidableEq

/-- The observable outcome of a handler: render a template, or redirect to
the admin dashboard (with an optional flashed message), or redirect to the
view page of a freshly created invoice. -/
inductive Response where
  | page (template : String)
  | redirectDashboard (flashMsg : Option String)
  | redirectViewInvoice (invoice_id : Nat)
deriving Repr, DecidableEq

/-- Product.query.get(product_id): point lookup by primary key. -/
def getProduct (db : DB) (pid : ℤ) : Option Product :=
  db.products.find? (fun p => ((p.id : ℤ) == pid))

/-- The create_invoice handler (src/app.py, lines 206-245).  The whole
body is wrapped in try/except: a parse failure or a commit failure is
caught, flashed, and turned into a dashboard redirect with no write.
commitFails models db.session.commit() raising a storage error. -/
def create_invoice (db : DB) (form : InvoiceForm) (commitFails : Bool) :
    DB × Response :=
  match form.product_id, form.height, form.width, form.quantity with
  | some product_id, some height, some width, some quantity =>
    match getProduct db product_id with
    | none => (db, Response.redirectDashboard (some "Product not found"))
    | some product =>
      let sqft := height * width
      let total := sqft * product.price_per_sqft * (quantity : ℚ)
      let invoice : Invoice :=
        { id := db.nextInvoiceId
          customer_name := form.customer_name
          customer_phone := form.customer_phone
          customer_address := form.customer_address
          product_id := product_id
          product_name := product.name
          height_ft := height
          width_ft := width
          quantity := quantity
          sqft_price_at_booking := product.price_per_sqft
          total_amount := total
          created_at := db.clock }
      if commitFails then
        (db, Response.redirectDashboard (some "storage error"))
      else
        ({ db with invoices := db.invoices ++ [invoice],
                   nextInvoiceId := db.nextInvoiceId + 1,
                   clock := db.clock + 1 },
         Response.redirectViewInvoice invoice.id)
  | _, _, _, _ =>
    (db, Response.redirectDashboard (some "could not convert form field"))

/-- Models the external werkzeug generate_password_hash as an abstract
injective function of the password. -/
def generate_password_hash (password : String) : String :=
  "pbkdf2-sha256$" ++ password

/-- init_database (src/app.py, lines 69-83): create the default admin if
absent and, inside that branch, a single LaborCost row if none exists. -/
def init_database (db : DB) : DB :=
  if (db.admins.find? (fun a => a.username == "admin")).isSome then db
  else
    let admin : Admin :=
      { id := db.nextAdminId
        username := "admin"
        password_hash := generate_password_hash "admin123" }
    let db1 := { db with admins := db.admins ++ [admin],
                         nextAdminId := db.nextAdminId + 1 }
    if db1.laborCosts.isEmpty then
      { db1 with laborCosts := [{ id := db1.nextLaborId, rate_per_sqft := 50 }],
                 nextLaborId := db1.nextLaborId + 1 }
    else db1

/-- add_category handler (src/app.py, lines 169-176): insert only when the
name field is present and non-empty (Python truthiness of the string). -/
def add_category (db : DB) (name : Option String) : DB × Response :=
  match name with
  | some n =>
    if n = "" then (db, Response.redirectDashboard none)
    else
      ({ db with categories := db.categories ++ [{ id := db.nextCategoryId, name := n }],
                 nextCategoryId := db.nextCategoryId + 1 },
       Response.redirectDashboard none)
  | none => (db, Response.redirectDashboard none)

/-- add_product handler (src/app.py, lines 178-191).  float(price) and
int(category_id) are unguarded, and a missing name makes the non-null
column fail at commit: each of these propagates as an error with no
write. -/
def add_product (db : DB) (name : Option String) (price : Option ℚ)
    (category_id : Option ℤ) (description image_url : Option String) :
    Except String (DB × Response) :=
  match name, price, category_id with
  | some n, some p, some cid =>
    Except.ok
      ({ db with products := db.products ++
                   [{ id := db.nextProductId
                      name := n
                      description := description
                      image_url := image_url
                      price_per_sqft := p
                      category_id := cid }],
                 nextProductId := db.nextProductId + 1 },
       Response.redirectDashboard none)
  | _, _, _ => Except.error "could not convert form field"

/-- update_labor handler (src/app.py, lines 193-204).  float(rate) is
unguarded, so a malformed rate propagates as an error with no write; on
success the first LaborCost row is updated in place, or a single row is
inserted when none exists. -/
def update_labor (db : DB) (rateField : Option ℚ) :
    Except String (DB × Response) :=
  match rateField with
  | none => Except.error "could not convert rate"
  | some rate =>
    match db.laborCosts with
    | [] =>
      Except.ok
        ({ db with laborCosts := [{ id := db.nextLaborId, rate_per_sqft := rate }],
                   nextLaborId := db.nextLaborId + 1 },
         Response.redirectDashboard none)
    | labor :: rest =>
      Except.ok
        ({ db with laborCosts := { labor with rate_per_sqft := rate } :: rest },
         Response.redirectDashboard none)

/-- Boolean order used by the dashboard query: invoice a comes no later
than invoice b in the listing when its timestamp is no smaller. -/
def invoiceDescLe (a b : Invoice) : Bool :=
  decide (b.created_at ≤ a.created_at)

/-- What the admin_dashboard handler (src/app.py, lines 155-166) passes to
its template. -/
structure DashboardView where
  categories : List Category
  products : List Product
  laborCost : Option LaborCost
  invoices : List Invoice
deriving Repr, DecidableEq

/-- admin_dashboard handler: all categories, all products, the first
LaborCost row, and the invoices ordered by created_at descending. -/
def admin_dashboard (db : DB) : DashboardView :=
  { categories := db.categories
    products := db.products
    laborCost := db.laborCosts.head?
    invoices := db.invoices.mergeSort invoiceDescLe }

/-- Modelled from the spec: an explicit admin edit of the live price of a
Product.  No route in src/app.py implements it (the spec notes the admin
edit is not implemented in source beyond creation); it is included so that
invariants can quantify over a later change of a referenced Product price. -/
def update_product_price (db : DB) (pid : Nat) (newPrice : ℚ) : DB :=
  let setPrice : Product → Product :=
    fun p => if p.id == pid then { p with price_per_sqft := newPrice } else p
  { db with products := db.products.map setPrice }

/-- One mutating operation of the application, used to state invariants
that every operation preserves. -/
inductive Op where
  | opInitDatabase
  | opAddCategory (name : Option String)
  | opAddProduct (name : Option String) (price : Option ℚ) (category_id : Option ℤ)
      (description image_url : Option String)
  | opUpdateLabor (rate : Option ℚ)
  | opCreateInvoice (form : InvoiceForm) (commitFails : Bool)
  | opUpdateProductPrice (pid : Nat) (newPrice : ℚ)

/-- State left behind by a handler that may raise: a raised error means
the transaction was never committed, so the store is kept unchanged. -/
def orKeep (db : DB) : Except String (DB × Response) → DB
  | Except.ok r => r.1
  | Except.error _ => db

/-- The state reached after one operation. -/
def step (db : DB) (op : Op) : DB :=
  match op with
  | Op.opInitDatabase => init_database db
  | Op.opAddCategory n => (add_category db n).1
  | Op.opAddProduct n p c d i => orKeep db (add_product db n p c d i)
  | Op.opUpdateLabor r => orKeep db (update_labor db r)
  | Op.opCreateInvoice f cf => (create_invoice db f cf).1
  | Op.opUpdateProductPrice pid np => update_product_price db pid np

/-! ### Helper lemmas -/

/-- Outcome analysis of create_invoice: every run either leaves the store
untouched and redirects to the dashboard with a flashed message, or appends
exactly one invoice and redirects to its view page. -/
theorem create_invoice_spec (db : DB) (form : InvoiceForm) (cf : Bool) :
    (∃ msg, create_invoice db form cf =
      (db, Response.redirectDashboard (some msg))) ∨
    (∃ inv, create_invoice db form cf =
      ({ db with invoices := db.invoices ++ [inv],
                 nextInvoiceId := db.nextInvoiceId + 1,
                 clock := db.clock + 1 },
       Response.redirectViewInvoice inv.id)) := by
  unfold create_invoice
  split
  · split
    · exact Or.inl ⟨"Product not found", rfl⟩
    · dsimp only
      split
      · exact Or.inl ⟨"storage error", rfl⟩
      · exact Or.inr ⟨_, rfl⟩
  · exact Or.inl ⟨"could not convert form field", rfl⟩

/-- On the success path with all fields parsed and the product found, the
appended invoice is exactly the snapshot record built by the handler. -/
theorem create_invoice_success (db : DB) (form : InvoiceForm) (pid : ℤ)
    (h w : ℚ) (q : ℤ) (p : Product)
    (hpid : form.product_id = some pid) (hh : form.height = some h)
    (hw : form.width = some w) (hq : form.quantity = some q)
    (hfind : getProduct db pid = some p) :
    create_invoice db form false =
      ({ db with
          invoices := db.invoices ++
            [{ id := db.nextInvoiceId
               customer_name := form.customer_name
               customer_phone := form.customer_phone
               customer_address := form.customer_address
               product_id := pid
               product_name := p.name
               height_ft := h
               width_ft := w
               quantity := q
               sqft_price_at_booking := p.price_per_sqft
               total_amount := h * w * p.price_per_sqft * (q : ℚ)
               created_at := db.clock }],
          nextInvoiceId := db.nextInvoiceId + 1,
          clock := db.clock + 1 },
       Response.redirectViewInvoice db.nextInvoiceId) := by
  unfold create_invoice
  rw [hpid, hh, hw, hq]
  dsimp only
  rw [hfind]
  rfl

/-! ### Concrete fixtures for witnesses and counterexamples -/

/-- Concrete product: price 50 per square foot. -/
def productA : Product :=
  { id := 1, name := "Aluminium Window", description := none, image_url := none,
    price_per_sqft := 50, category_id := 1 }

/-- Concrete store: one category, one product, one LaborCost row with rate
25, no invoices yet. -/
def dbA : DB :=
  { admins := [], categories := [{ id := 1, name := "Windows" }],
    products := [productA],
    laborCosts := [{ id := 1, rate_per_sqft := 25 }],
    invoices := [],
    nextAdminId := 1, nextCategoryId := 2, nextProductId := 2,
    nextLaborId := 2, nextInvoiceId := 1, clock := 0 }

/-- Concrete well-formed form: height 10, width 5, quantity 2, product 1. -/
def formA : InvoiceForm :=
  { product_id := some 1, customer_name := "Asha", customer_phone := "99",
    customer_address := "Street 1", height := some 10, width := some 5,
    quantity := some 2 }

/-! ### Claims -/

/-- C1: every successful invoice creation with product price p, height h,
width w and quantity q persists exactly one invoice whose stored
total_amount equals h * w * p * q (computed once, stored in the row), with
the price snapshotted; the handler then redirects to that invoice. -/
theorem C1_total_amount_formula (db : DB) (form : InvoiceForm) (pid : ℤ)
    (h w : ℚ) (q : ℤ) (p : Product)
    (hpid : form.product_id = some pid) (hh : form.height = some h)
    (hw : form.width = some w) (hq : form.quantity = some q)
    (hfind : getProduct db pid = some p) :
    ∃ inv : Invoice,
      (create_invoice db form false).1.invoices = db.invoices ++ [inv] ∧
      inv.total_amount = h * w * p.price_per_sqft * (q : ℚ) ∧
      inv.sqft_price_at_booking = p.price_per_sqft ∧
      (create_invoice db form false).2 = Response.redirectViewInvoice inv.id := by
  rw [create_invoice_success db form pid h w q p hpid hh hw hq hfind]
  exact ⟨_, rfl, rfl, rfl, rfl⟩

/-- C1 witness: price 50, height 10, width 5, quantity 2 gives total 5000. -/
theorem C1_total_amount_formula_witness :
    ((10 : ℚ) * 5 * productA.price_per_sqft * ((2 : ℤ) : ℚ) = 5000) ∧
    ∃ inv : Invoice,
      (create_invoice dbA formA false).1.invoices = dbA.invoices ++ [inv] ∧
      inv.total_amount = 10 * 5 * productA.price_per_sqft * ((2 : ℤ) : ℚ) ∧
      inv.sqft_price_at_booking = productA.price_per_sqft ∧
      (create_invoice dbA formA false).2 = Response.redirectViewInvoice inv.id :=
  ⟨by norm_num [productA],
   C1_total_amount_formula dbA formA 1 10 5 2 productA rfl rfl rfl rfl rfl⟩

/-- Stated from the words of the spec sentence behind C2: a total that
multiplies area by price and by the labor rate. -/
def specTotalAreaPriceLabor (height width price laborRate : ℚ) : ℚ :=
  height * width * price * laborRate

/-- C2 counterexample: in a store whose labor rate is 25, creating an
invoice for height 10, width 5, quantity 2 at price 50 stores total 5000,
which differs from area times price times labor rate (62500): the handler
never reads the LaborCost table. -/
theorem C2_labor_rate_counterexample :
    dbA.laborCosts.map LaborCost.rate_per_sqft = [25] ∧
    ∃ inv : Invoice,
      (create_invoice dbA formA false).1.invoices = [inv] ∧
      inv.total_amount = 5000 ∧
      inv.total_amount ≠
        specTotalAreaPriceLabor inv.height_ft inv.width_ft
          inv.sqft_price_at_booking 25 := by
  refine ⟨rfl, ?_⟩
  rw [create_invoice_success dbA formA 1 10 5 2 productA rfl rfl rfl rfl rfl]
  refine ⟨_, rfl, ?_, ?_⟩ <;>
    norm_num [specTotalAreaPriceLabor, productA]

/-- C2 amended: the labor rate never enters the computed total — for every
contents of the LaborCost table, the persisted total is area (height times
width) times product price times quantity. -/
theorem C2_amended_total_ignores_labor (db : DB) (labor : List LaborCost)
    (form : InvoiceForm) (pid : ℤ) (h w : ℚ) (q : ℤ) (p : Product)
    (hpid : form.product_id = some pid) (hh : form.height = some h)
    (hw : form.width = some w) (hq : form.quantity = some q)
    (hfind : getProduct db pid = some p) :
    ∃ inv : Invoice,
      (create_invoice { db with laborCosts := labor } form false).1.invoices =
        db.invoices ++ [inv] ∧
      inv.total_amount = h * w * p.price_per_sqft * (q : ℚ) := by
  have hfind2 : getProduct { db with laborCosts := labor } pid = some p := hfind
  rw [create_invoice_success { db with laborCosts := labor } form pid h w q p
        hpid hh hw hq hfind2]
  exact ⟨_, rfl, rfl⟩

/-- C2 amended witness: same result with the labor rate set to 999. -/
theorem C2_amended_total_ignores_labor_witness :
    ∃ inv : Invoice,
      (create_invoice { dbA with laborCosts := [{ id := 1, rate_per_sqft := 999 }] }
          formA false).1.invoices = dbA.invoices ++ [inv] ∧
      inv.total_amount = 10 * 5 * productA.price_per_sqft * ((2 : ℤ) : ℚ) :=
  C2_amended_total_ignores_labor dbA [{ id := 1, rate_per_sqft := 999 }]
    formA 1 10 5 2 productA rfl rfl rfl rfl rfl

/-- C3: when the parsed product_id matches no Product row, the handler
flashes Product not found and redirects to the dashboard, with the store —
in particular the invoice table — completely unchanged. -/
theorem C3_missing_product_no_write (db : DB) (form : InvoiceForm) (pid : ℤ)
    (h w : ℚ) (q : ℤ) (cf : Bool)
    (hpid : form.product_id = some pid) (hh : form.height = some h)
    (hw : form.width = some w) (hq : form.quantity = some q)
    (hfind : getProduct db pid = none) :
    create_invoice db form cf =
      (db, Response.redirectDashboard (some "Product not found")) := by
  unfold create_invoice
  rw [hpid, hh, hw, hq]
  dsimp only
  rw [hfind]

/-- C3 witness: product_id 9999 is absent from the store, the run returns
the unchanged store and the dashboard redirect. -/
theorem C3_missing_product_no_write_witness :
    create_invoice dbA { formA with product_id := some 9999 } false =
      (dbA, Response.redirectDashboard (some "Product not found")) :=
  C3_missing_product_no_write dbA { formA with product_id := some 9999 }
    9999 10 5 2 false rfl rfl rfl rfl rfl

/-- No single operation ever removes or edits an invoice row: each one at
most appends to the invoice table. -/
theorem step_invoices_extend (db : DB) (op : Op) :
    ∃ tail, (step db op).invoices = db.invoices ++ tail := by
  cases op with
  | opInitDatabase =>
    refine ⟨[], ?_⟩
    rw [List.append_nil]
    show (init_database db).invoices = db.invoices
    unfold init_database
    split
    · rfl
    · dsimp only
      split <;> rfl
  | opAddCategory n =>
    refine ⟨[], ?_⟩
    rw [List.append_nil]
    show (add_category db n).1.invoices = db.invoices
    unfold add_category
    cases n with
    | none => rfl
    | some s =>
      dsimp only
      split <;> rfl
  | opAddProduct n p c d i =>
    refine ⟨[], ?_⟩
    rw [List.append_nil]
    show (orKeep db (add_product db n p c d i)).invoices = db.invoices
    unfold add_product
    cases n <;> cases p <;> cases c <;> rfl
  | opUpdateLabor r =>
    refine ⟨[], ?_⟩
    rw [List.append_nil]
    show (orKeep db (update_labor db r)).invoices = db.invoices
    unfold update_labor
    cases r with
    | none => rfl
    | some rate =>
      dsimp only
      cases db.laborCosts <;> rfl
  | opCreateInvoice f cf =>
    rcases create_invoice_spec db f cf with ⟨msg, heq⟩ | ⟨inv, heq⟩
    · refine ⟨[], ?_⟩
      rw [List.append_nil]
      show (create_invoice db f cf).1.invoices = db.invoices
      rw [heq]
    · refine ⟨[inv], ?_⟩
      show (create_invoice db f cf).1.invoices = db.invoices ++ [inv]
      rw [heq]
  | opUpdateProductPrice pid np =>
    exact ⟨[], by rw [List.append_nil]; rfl⟩

/-- C4: after any sequence of later operations — changing the price of the
referenced Product included — the invoice table still starts with the very
rows present before, so every already-created invoice keeps its snapshot
fields sqft_price_at_booking, product_name and total_amount exactly as
captured at creation. -/
theorem C4_snapshot_fields_immutable (db : DB) (ops : List Op) :
    (∃ tail, (ops.foldl step db).invoices = db.invoices ++ tail) ∧
    ∀ inv ∈ db.invoices, inv ∈ (ops.foldl step db).invoices := by
  have main : ∀ (l : List Op) (d : DB),
      ∃ tail, (l.foldl step d).invoices = d.invoices ++ tail := by
    intro l
    induction l with
    | nil => exact fun d => ⟨[], (List.append_nil _).symm⟩
    | cons op rest ih =>
      intro d
      obtain ⟨t1, h1⟩ := step_invoices_extend d op
      obtain ⟨t2, h2⟩ := ih (step d op)
      exact ⟨t1 ++ t2, by rw [List.foldl_cons, h2, h1, List.append_assoc]⟩
  obtain ⟨tail, htail⟩ := main ops db
  refine ⟨⟨tail, htail⟩, ?_⟩
  intro inv hmem
  rw [htail]
  exact List.mem_append_left _ hmem

/-- Concrete stored invoice, as the success run on dbA and formA writes it. -/
def invA : Invoice :=
  { id := 1, customer_name := "Asha", customer_phone := "99",
    customer_address := "Street 1", product_id := 1,
    product_name := "Aluminium Window", height_ft := 10, width_ft := 5,
    quantity := 2, sqft_price_at_booking := 50, total_amount := 5000,
    created_at := 0 }

/-- The concrete store after that invoice was created. -/
def dbB : DB := { dbA with invoices := [invA], nextInvoiceId := 2, clock := 1 }

/-- C4 witness: a store holding one invoice, after a product price change
followed by a labor update, still holds that exact invoice. -/
theorem C4_snapshot_fields_immutable_witness :
    (∃ tail,
      ([Op.opUpdateProductPrice 1 77, Op.opUpdateLabor (some 3)].foldl step
          dbB).invoices = dbB.invoices ++ tail) ∧
    ∀ inv ∈ dbB.invoices,
      inv ∈ ([Op.opUpdateProductPrice 1 77, Op.opUpdateLabor (some 3)].foldl step
          dbB).invoices :=
  C4_snapshot_fields_immutable dbB
    [Op.opUpdateProductPrice 1 77, Op.opUpdateLabor (some 3)]

/-- Concrete malformed-domain form: height -1 (parses, not positive). -/
def formNeg : InvoiceForm := { formA with height := some (-1) }

/-- C5 counterexample: height -1 is a finite parseable float that is not
positive, yet the handler performs the write — one invoice (total -500) is
persisted and the handler redirects to its view page instead of failing. -/
theorem C5_no_positivity_validation_counterexample :
    formNeg.height = some (-1) ∧ ¬ ((0 : ℚ) < -1) ∧
    ∃ inv : Invoice,
      (create_invoice dbA formNeg false).1.invoices = [inv] ∧
      (create_invoice dbA formNeg false).2 =
        Response.redirectViewInvoice inv.id ∧
      inv.total_amount = -500 := by
  refine ⟨rfl, by norm_num, ?_⟩
  rw [create_invoice_success dbA formNeg 1 (-1) 5 2 productA rfl rfl rfl rfl rfl]
  exact ⟨_, rfl, rfl, by norm_num [productA]⟩

/-- C5 amended: the handler rejects with a caught error and no write
exactly the fields whose numeric conversion fails (missing or malformed
text); values that parse — zero and negative ones included — are not
validated for positivity and are accepted. -/
theorem C5_amended_parse_failure_no_write (db : DB) (form : InvoiceForm)
    (cf : Bool)
    (hbad : form.product_id = none ∨ form.height = none ∨
      form.width = none ∨ form.quantity = none) :
    create_invoice db form cf =
      (db, Response.redirectDashboard (some "could not convert form field")) := by
  unfold create_invoice
  split
  · rcases hbad with hb | hb | hb | hb <;> simp_all
  · rfl

/-- C5 amended witness: a form whose height field does not parse is
rejected with the store unchanged. -/
theorem C5_amended_parse_failure_no_write_witness :
    create_invoice dbA { formA with height := none } false =
      (dbA, Response.redirectDashboard (some "could not convert form field")) :=
  C5_amended_parse_failure_no_write dbA { formA with height := none } false
    (Or.inr (Or.inl rfl))

/-- C6: creating an invoice never mutates the referenced Product or any
other pre-existing row: the admin, category, product and labor tables are
returned unchanged, and the invoice table is either unchanged (failure) or
extended by exactly the one new row. -/
theorem C6_frame_only_invoice_append (db : DB) (form : InvoiceForm) (cf : Bool) :
    (create_invoice db form cf).1.admins = db.admins ∧
    (create_invoice db form cf).1.categories = db.categories ∧
    (create_invoice db form cf).1.products = db.products ∧
    (create_invoice db form cf).1.laborCosts = db.laborCosts ∧
    ((create_invoice db form cf).1.invoices = db.invoices ∨
      ∃ inv, (create_invoice db form cf).1.invoices = db.invoices ++ [inv]) := by
  rcases create_invoice_spec db form cf with ⟨msg, heq⟩ | ⟨inv, heq⟩
  · rw [heq]
    exact ⟨rfl, rfl, rfl, rfl, Or.inl rfl⟩
  · rw [heq]
    exact ⟨rfl, rfl, rfl, rfl, Or.inr ⟨inv, rfl⟩⟩

/-- C7: a zero height (or zero quantity) is accepted: the invoice is
persisted, its total_amount is 0, and the handler redirects to it. -/
theorem C7_zero_boundary_accepted (db : DB) (form : InvoiceForm) (pid : ℤ)
    (h w : ℚ) (q : ℤ) (p : Product)
    (hpid : form.product_id = some pid) (hh : form.height = some h)
    (hw : form.width = some w) (hq : form.quantity = some q)
    (hfind : getProduct db pid = some p)
    (hzero : h = 0 ∨ q = 0) :
    ∃ inv : Invoice,
      (create_invoice db form false).1.invoices = db.invoices ++ [inv] ∧
      inv.total_amount = 0 ∧
      (create_invoice db form false).2 = Response.redirectViewInvoice inv.id := by
  rw [create_invoice_success db form pid h w q p hpid hh hw hq hfind]
  refine ⟨_, rfl, ?_, rfl⟩
  rcases hzero with hz | hz <;> simp [hz]

/-- C7 witness: height 0 yields a persisted invoice with total 0. -/
theorem C7_zero_boundary_accepted_witness :
    ∃ inv : Invoice,
      (create_invoice dbA { formA with height := some 0 } false).1.invoices =
        dbA.invoices ++ [inv] ∧
      inv.total_amount = 0 ∧
      (create_invoice dbA { formA with height := some 0 } false).2 =
        Response.redirectViewInvoice inv.id :=
  C7_zero_boundary_accepted dbA { formA with height := some 0 } 1 0 5 2
    productA rfl rfl rfl rfl rfl (Or.inl rfl)

/-- C8: the admin dashboard lists exactly the stored invoices — a
permutation of the invoice table — ordered by created_at descending
(newest first). -/
theorem C8_dashboard_invoices_newest_first (db : DB) :
    (admin_dashboard db).invoices.Perm db.invoices ∧
    List.Pairwise (fun a b : Invoice => b.created_at ≤ a.created_at)
      (admin_dashboard db).invoices := by
  constructor
  · exact List.mergeSort_perm db.invoices invoiceDescLe
  · have htrans : ∀ a b c : Invoice, invoiceDescLe a b = true →
        invoiceDescLe b c = true → invoiceDescLe a c = true := by
      intro a b c hab hbc
      simp only [invoiceDescLe, decide_eq_true_eq] at hab hbc ⊢
      exact le_trans hbc hab
    have htotal : ∀ a b : Invoice,
        (invoiceDescLe a b || invoiceDescLe b a) = true := by
      intro a b
      simp only [invoiceDescLe, Bool.or_eq_true, decide_eq_true_eq]
      exact Nat.le_total b.created_at a.created_at
    have hs := List.sorted_mergeSort htrans htotal db.invoices
    exact hs.imp (fun hab => by simpa [invoiceDescLe] using hab)

/-- C9: the create_invoice handler is total and never leaks an exception:
every run returns a redirect (never a rendered page, never a propagated
error), a dashboard redirect always comes with the store untouched, and an
invoice-view redirect always comes with exactly one appended invoice. -/
theorem C9_handler_total_no_leak (db : DB) (form : InvoiceForm) (cf : Bool) :
    match create_invoice db form cf with
    | (db2, Response.redirectDashboard _) => db2 = db
    | (db2, Response.redirectViewInvoice _) =>
        ∃ inv, db2.invoices = db.invoices ++ [inv]
    | (_, Response.page _) => False := by
  rcases create_invoice_spec db form cf with ⟨msg, heq⟩ | ⟨inv, heq⟩
  · rw [heq]
  · rw [heq]
    exact ⟨inv, rfl⟩

/-- C10: every operation preserves the invariant that the LaborCost table
holds at most one row: initialization inserts the default row only when
the table is empty, and the labor update edits the existing first row in
place instead of inserting a second one. -/
theorem C10_labor_cost_at_most_one_row (db : DB) (op : Op)
    (hinv : db.laborCosts.length ≤ 1) :
    (step db op).laborCosts.length ≤ 1 := by
  cases op with
  | opInitDatabase =>
    show (init_database db).laborCosts.length ≤ 1
    unfold init_database
    split
    · exact hinv
    · dsimp only
      split
      · simp
      · exact hinv
  | opAddCategory n =>
    show (add_category db n).1.laborCosts.length ≤ 1
    unfold add_category
    cases n with
    | none => exact hinv
    | some s =>
      dsimp only
      split <;> exact hinv
  | opAddProduct n p c d i =>
    show (orKeep db (add_product db n p c d i)).laborCosts.length ≤ 1
    unfold add_product
    cases n <;> cases p <;> cases c <;> exact hinv
  | opUpdateLabor r =>
    show (orKeep db (update_labor db r)).laborCosts.length ≤ 1
    unfold update_labor
    cases r with
    | none => exact hinv
    | some rate =>
      dsimp only
      cases hl : db.laborCosts with
      | nil => simp [orKeep]
      | cons l rest =>
        have hlen := hinv
        rw [hl] at hlen
        simpa [orKeep] using hlen
  | opCreateInvoice f cf =>
    show (create_invoice db f cf).1.laborCosts.length ≤ 1
    rcases create_invoice_spec db f cf with ⟨msg, heq⟩ | ⟨inv, heq⟩ <;>
      rw [heq] <;> exact hinv
  | opUpdateProductPrice pid np => exact hinv

/-- C10 witness: a store with one labor row, after a labor-rate update,
still has at most one labor row. -/
theorem C10_labor_cost_at_most_one_row_witness :
    dbB.laborCosts.length ≤ 1 ∧
    (step dbB (Op.opUpdateLabor (some 3))).laborCosts.length ≤ 1 :=
  ⟨by decide, C10_labor_cost_at_most_one_row dbB (Op.opUpdateLabor (some 3))
    (by decide)⟩

end AluCalu
